import Mathlib

/-
  Verification development for the LABIQ lab-report monitoring client
  (frontend polling / aggregation / telemetry layer).

  Each definition is a shallow embedding of a function or state
  transition of the source files under src/frontend; doc comments name
  the embedded source location.  Wall-clock readings (Date.now deltas,
  toLocaleTimeString) enter the model as explicit parameters.
-/

namespace LabIQ

/- ──────────────────────────── §1 Telemetry tap ────────────────────────────
   page.tsx lines 54-80: axios request / response interceptors. -/

/-- One entry of the header ES|QL feed (`esqlFeed` state in page.tsx):
`{label, ms, rows}`. -/
structure FeedEntry where
  label : String
  ms : Nat
  rows : Nat
deriving DecidableEq, Repr

/-- `url.split('?')[0]` — the path with any query string stripped. -/
def stripQuery (url : String) : String :=
  (url.toList.takeWhile (fun c => c ≠ '?')).asString

/-- Whether the character list `needle` occurs as a prefix of `hay`
(helper for JS `String.prototype.includes`). -/
def startsWithL : List Char → List Char → Bool
  | _, [] => true
  | [], _ :: _ => false
  | a :: xs, b :: ys => a = b && startsWithL xs ys

/-- Whether `needle` occurs as a contiguous segment of `hay`
(JS `url.includes(...)`). -/
def containsSub (hay needle : List Char) : Bool :=
  match hay with
  | [] => needle.isEmpty
  | _ :: t => startsWithL hay needle || containsSub t needle

/-- The interceptors' guard, page.tsx lines 57 and 64:
`url.startsWith('/api/') && !url.includes('health')`, applied to the
query-stripped path (both string tests modelled character-wise). -/
def tapGuard (url : String) : Bool :=
  startsWithL url.toList ("/api/".toList) &&
    !(containsSub url.toList ("health".toList))

/-- Request interceptor body, page.tsx lines 55-61.  `path` is
`config.url` with the API origin already removed; on a guarded path a
placeholder entry is pushed at the head and the feed is truncated to 6. -/
def reqIntercept (path : String) (prev : List FeedEntry) : List FeedEntry :=
  if tapGuard (stripQuery path) then
    (({ label := stripQuery path, ms := 0, rows := 0 } : FeedEntry) :: prev).take 6
  else prev

/-- The response body fields the interceptor sniffs, page.tsx lines 65-67.
`none` models an absent (undefined) field; biomarkers/alerts are kept
only as the lists whose lengths are read. -/
structure RespData where
  row_count : Option Nat
  total : Option Nat
  biomarkers : Option (List Nat)
  alerts : Option (List Nat)
  esql_ms : Option Nat
  ms : Option Nat
  execution_ms : Option Nat
deriving DecidableEq, Repr

/-- `response.data?.row_count ?? response.data?.total ??
response.data?.biomarkers?.length ?? response.data?.alerts?.length ?? 0`
(first present field wins). -/
def extractRows (d : RespData) : Nat :=
  match d.row_count with
  | some v => v
  | none =>
    match d.total with
    | some v => v
    | none =>
      match d.biomarkers with
      | some l => l.length
      | none =>
        match d.alerts with
        | some l => l.length
        | none => 0

/-- `response.data?.esql_ms ?? response.data?.ms ?? response.data?.execution_ms ?? 0`. -/
def extractMs (d : RespData) : Nat :=
  match d.esql_ms with
  | some v => v
  | none =>
    match d.ms with
    | some v => v
    | none =>
      match d.execution_ms with
      | some v => v
      | none => 0

/-- Response interceptor body, page.tsx lines 62-75: on a guarded path,
if the head entry's label equals the normalized url, replace the head
with the extracted metrics; otherwise return the feed unchanged. -/
def respIntercept (path : String) (d : RespData) (prev : List FeedEntry) :
    List FeedEntry :=
  if tapGuard (stripQuery path) then
    match prev with
    | [] => []
    | h :: t =>
      if h.label = stripQuery path then
        ({ label := stripQuery path, ms := extractMs d,
           rows := extractRows d } : FeedEntry) :: t
      else h :: t
  else prev

/- ──────────────────────────── §2 StatusMonitor ────────────────────────────
   page.tsx lines 82-96: checkStatus. -/

/-- The `SysStatus` record of page.tsx lines 34-40. -/
structure SysStatus where
  es_connected : Bool
  doc_count : Nat
  mcp_enabled : Bool
  latency_ms : Nat
  last_checked : String
deriving DecidableEq, Repr

/-- The health-probe response body read in page.tsx lines 87-89. -/
structure HealthResp where
  elasticsearch : String
  lab_results_count : Option Nat
  mcp_enabled : Option Bool
deriving DecidableEq, Repr

/-- Successful probe, page.tsx lines 85-92: all fields repopulated from
the response; `latency` and `now` are wall-clock inputs. -/
def checkStatusOk (d : HealthResp) (latency : Nat) (now : String) : SysStatus :=
  { es_connected := d.elasticsearch = "connected"
    doc_count := d.lab_results_count.getD 0
    mcp_enabled := d.mcp_enabled.getD false
    latency_ms := latency
    last_checked := now }

/-- Failed probe, page.tsx line 94:
`setStatus(s => s ? { ...s, es_connected: false } : null)`. -/
def checkStatusFail (s : Option SysStatus) : Option SysStatus :=
  match s with
  | some st => some { st with es_connected := false }
  | none => none

/- ──────────────────────────── §3 PatientRegistry ──────────────────────────
   page.tsx lines 98-120: loadPatients. -/

/-- The `Patient` record of page.tsx lines 26-33 (roster rows after the
normalizing map of lines 102-109). -/
structure Patient where
  patient_id : String
  total_tests : Nat
  abnormal : Nat
  critical : Nat
  last_test : String
  first_test : String
deriving DecidableEq, Repr

/-- The registry slice of the App state: roster, active patient id,
critical-alert banner and roster-loading flag. -/
structure RegistryState where
  patients : List Patient
  patientId : String
  criticalAlert : Option String
  patientsLoading : Bool
deriving DecidableEq, Repr

/-- The banner text of page.tsx line 116. -/
def criticalMsg (pid : String) (n : Nat) : String :=
  "Patient " ++ pid ++ " has " ++ toString n ++
    " critical lab panels — immediate review needed"

/-- Successful roster load, page.tsx lines 110-119.  `st.patientId` is
the closure-captured active id: the reassignment on line 112 does not
change the captured binding, so line 114's `find` and line 116's
interpolation still use the pre-reassignment id. -/
def loadPatientsOk (st : RegistryState) (rows : List Patient) : RegistryState :=
  let newPid :=
    match rows with
    | [] => st.patientId
    | r0 :: _ =>
      if (rows.find? (fun p => p.patient_id == st.patientId)).isNone then
        r0.patient_id
      else st.patientId
  let current := rows.find? (fun p => p.patient_id == st.patientId)
  { patients := rows
    patientId := newPid
    criticalAlert :=
      match current with
      | some c =>
        if 0 < c.critical then some (criticalMsg st.patientId c.critical)
        else none
      | none => none
    patientsLoading := false }

/- ─────────────────────────── §4 DashboardAggregator ───────────────────────
   DashboardTab.tsx lines 92-156. -/

/-- One ES|QL query-log entry, DashboardTab.tsx line 20. -/
structure QueryLog where
  query : String
  rows : Nat
  ms : Nat
  time : String
deriving DecidableEq, Repr

/-- `logQuery`, DashboardTab.tsx lines 104-108: prepend and truncate to 10. -/
def logQuery (e : QueryLog) (prev : List QueryLog) : List QueryLog :=
  (e :: prev).take 10

/-- The biomarkers response body: `data.biomarkers` may be absent
(`|| []` applies); individual biomarker records are opaque here. -/
structure BioData where
  biomarkers : Option (List Nat)
deriving DecidableEq, Repr

/-- The alert-feed response body: `data.alerts` may be absent. -/
structure AlertData where
  alerts : Option (List Nat)
deriving DecidableEq, Repr

/-- The settled outcomes of the four fan-out calls of DashboardTab.tsx
lines 116-121 (`Promise.allSettled`): `some` is a fulfilled call with
its response data (summary and risk payloads opaque), `none` a rejected
one. -/
structure Outcomes where
  sumR : Option Nat
  bioR : Option BioData
  riskR : Option Nat
  alertR : Option AlertData
deriving DecidableEq, Repr

/-- The DashboardTab state slices touched by `load`. -/
structure DashState where
  summary : Option Nat
  biomarkers : List Nat
  risk : Option Nat
  alerts : List Nat
  queryLog : List QueryLog
  loading : Bool
  lastUpdate : String
  countdown : Nat
deriving DecidableEq, Repr

/-- Query text of DashboardTab.tsx line 125. -/
def sumQueryText (pid : String) : String :=
  "FROM lab-results | WHERE patient_id == \"" ++ pid ++ "\" | STATS COUNT(*)"

/-- Query text of DashboardTab.tsx line 129. -/
def bioQueryText (pid : String) : String :=
  "GET lab-results/_search \x7b patient_id: \"" ++ pid ++ "\", sort: test_date \x7d"

/-- Query text of DashboardTab.tsx line 133. -/
def riskQueryText (pid : String) : String :=
  "FROM lab-results | WHERE patient_id == \"" ++ pid ++
    "\" AND abnormal_flags IS NOT NULL | STATS COUNT(*)"

/-- Query text of DashboardTab.tsx line 137. -/
def alertQueryText (pid : String) : String :=
  "FROM lab-results | WHERE patient_id == \"" ++ pid ++
    "\" | SORT test_date DESC | LIMIT 5"

/-- `load`, DashboardTab.tsx lines 110-145.  Returns the new state and
the trace of values passed to `setLoading` during the cycle: `true` on
line 111 and `false` in the `finally` on line 143.  `ms1..ms4` are the
wall-clock `Math.round((Date.now() - t0) / k)` readings of the four log
lines and `now` the `toLocaleTimeString` reading.  `thrown` models the
try body raising after the fan-out settles: the per-slice updates are
abandoned but the `finally` clause still runs. -/
def load (pid : String) (st : DashState) (o : Outcomes)
    (ms1 ms2 ms3 ms4 : Nat) (now : String) (thrown : Bool) :
    DashState × List Bool :=
  let st0 := { st with loading := true }
  if thrown then ({ st0 with loading := false }, [true, false])
  else
    let st1 :=
      match o.sumR with
      | some d =>
        { st0 with summary := some d
                   queryLog := logQuery ⟨sumQueryText pid, 1, ms1, now⟩ st0.queryLog }
      | none => st0
    let st2 :=
      match o.bioR with
      | some d =>
        { st1 with biomarkers := d.biomarkers.getD []
                   queryLog := logQuery
                     ⟨bioQueryText pid, (d.biomarkers.getD []).length, ms2, now⟩
                     st1.queryLog }
      | none => st1
    let st3 :=
      match o.riskR with
      | some d =>
        { st2 with risk := some d
                   queryLog := logQuery ⟨riskQueryText pid, 1, ms3, now⟩ st2.queryLog }
      | none => st2
    let st4 :=
      match o.alertR with
      | some d =>
        { st3 with alerts := d.alerts.getD []
                   queryLog := logQuery
                     ⟨alertQueryText pid, (d.alerts.getD []).length, ms4, now⟩
                     st3.queryLog }
      | none => st3
    let st5 := { st4 with lastUpdate := now, countdown := 30 }
    ({ st5 with loading := false }, [true, false])

/- ─────────────────────────── §5 PollingScheduler ──────────────────────────
   page.tsx lines 122-127 (fast cadence) and DashboardTab.tsx lines
   147-156 (dashboard countdown). -/

/-- In-flight request counts of the fast 20-second cadence. -/
structure FastState where
  statusInflight : Nat
  rosterInflight : Nat
deriving DecidableEq, Repr

/-- A fast-cadence event: an interval tick or a completion. -/
inductive FastEvent where
  | tick
  | statusDone
  | rosterDone
deriving DecidableEq, Repr

/-- page.tsx line 125: `setInterval(() => { checkStatus(); loadPatients(); }, 20_000)`
— every tick dispatches both calls unconditionally; completions settle
one outstanding call each. -/
def fastStep (s : FastState) : FastEvent → FastState
  | .tick =>
    { statusInflight := s.statusInflight + 1
      rosterInflight := s.rosterInflight + 1 }
  | .statusDone => { s with statusInflight := s.statusInflight - 1 }
  | .rosterDone => { s with rosterInflight := s.rosterInflight - 1 }

/-- Dashboard-cadence countdown plus the number of `load` cycles
currently outstanding. -/
structure DashSched where
  countdown : Nat
  inflight : Nat
deriving DecidableEq, Repr

/-- A dashboard-cadence event: a one-second countdown tick or a `load`
cycle settling. -/
inductive DashEvent where
  | tick
  | complete
deriving DecidableEq, Repr

/-- DashboardTab.tsx lines 149-154: each second,
`setCountdown(c => { if (c <= 1) { load(); return 30; } return c - 1; })`;
a completing `load` runs `setCountdown(30)` (line 141) and settles. -/
def dashStep (s : DashSched) : DashEvent → DashSched
  | .tick =>
    if s.countdown ≤ 1 then { countdown := 30, inflight := s.inflight + 1 }
    else { countdown := s.countdown - 1, inflight := s.inflight }
  | .complete => { countdown := 30, inflight := s.inflight - 1 }

/-- Run a sequence of dashboard-cadence events. -/
def dashRun (s : DashSched) (es : List DashEvent) : DashSched :=
  es.foldl dashStep s

/- ───────────────────────── §6 RiskVisualizationEngine ─────────────────────
   ScoringPanel.tsx lines 53-56 (gauge) and DashboardTab.tsx lines 23-52
   (sparkline). -/

/-- ScoringPanel.tsx line 54: `(percentile / 100) * 180 - 90`. -/
def gaugeAngle (p : ℚ) : ℚ := p / 100 * 180 - 90

/-- ScoringPanel.tsx lines 55-56: needle color thresholds
(critical red / high orange / elevated yellow / normal green). -/
def gaugeColor (p : ℚ) : String :=
  if 90 ≤ p then "#ef4444"
  else if 75 ≤ p then "#f97316"
  else if 50 ≤ p then "#eab308"
  else "#22c55e"

/-- `Math.min(...values)` over the series (head seeds the fold; the 0
default is unreachable behind the length guard). -/
def sparkMin : List ℚ → ℚ
  | [] => 0
  | h :: t => t.foldl min h

/-- `Math.max(...values)`. -/
def sparkMax : List ℚ → ℚ
  | [] => 0
  | h :: t => t.foldl max h

/-- DashboardTab.tsx line 25: `range = max - min || 1` (the JS `||`
replaces a zero span by 1). -/
def sparkRange (values : List ℚ) : ℚ :=
  if sparkMax values - sparkMin values = 0 then 1
  else sparkMax values - sparkMin values

/-- DashboardTab.tsx lines 27-31: the polyline points, with W = 80,
H = 24, pad = 2:
`x = pad + (i / (values.length - 1)) * (W - pad * 2)`,
`y = pad + (1 - (v - min) / range) * (H - pad * 2)`. -/
def sparkPoints (values : List ℚ) : List (ℚ × ℚ) :=
  let mn := sparkMin values
  let range := sparkRange values
  values.enum.map fun iv =>
    (2 + ((iv.1 : ℚ) / ((values.length : ℚ) - 1)) * (80 - 2 * 2),
     2 + (1 - (iv.2 - mn) / range) * (24 - 2 * 2))

/-- The sparkline render result: the explicit no-data placeholder of
DashboardTab.tsx line 24, or the polyline with its end-marker
coordinates (lines 33-35). -/
inductive SparkOut where
  | noData
  | line (pts : List (ℚ × ℚ)) (lastX lastY : ℚ)
deriving DecidableEq, Repr

/-- `Sparkline`, DashboardTab.tsx lines 23-52 (rendering reduced to the
computed geometry). -/
def sparkline (values : List ℚ) : SparkOut :=
  if values.length < 2 then .noData
  else
    let mn := sparkMin values
    let range := sparkRange values
    let last := values.getLast?.getD 0
    .line (sparkPoints values) (2 + (80 - 2 * 2))
      (2 + (1 - (last - mn) / range) * (24 - 2 * 2))

/- ─────────────────────────── §7 ConsoleExecutor ───────────────────────────
   EsqlTab.tsx lines 122-142. -/

/-- The executor's view of an `/api/esql/run` response (rows and columns
opaque; only the fields `run` branches on are kept). -/
structure EsqlResult where
  status : String
  row_count : Nat
  ms : Nat
  error : Option String
deriving DecidableEq, Repr

/-- The EsqlTab state slices touched by `run`. -/
structure ExecState where
  query : String
  result : Option EsqlResult
  running : Bool
  error : Option String
  rawOpen : Bool
deriving DecidableEq, Repr

/-- The synchronous part of `run`, EsqlTab.tsx lines 132-134:
`if (!query.trim() || running) return;` then assert `running`, clear
`error`, `result` and `rawOpen`.  The returned Bool is whether the POST
was dispatched. -/
def runSubmit (st : ExecState) : ExecState × Bool :=
  if st.query.trim = "" || st.running then (st, false)
  else
    ({ st with running := true, error := none, result := none, rawOpen := false },
     true)

/-- The resolution of a dispatched `run`, EsqlTab.tsx lines 136-141:
an error-status body or a transport failure sets `error`; otherwise the
result is stored; `running` clears in the `finally`. -/
def runResolve (st : ExecState) : Except String EsqlResult → ExecState
  | .ok d =>
    if d.status = "error" then { st with error := d.error, running := false }
    else { st with result := some d, running := false }
  | .error msg => { st with error := some msg, running := false }

/- ──────────────────────────────── Theorems ──────────────────────────────── -/

/-- C4: a failed health probe with a previous snapshot yields that
snapshot with only the connectivity flag set to false (document count,
feature flag, latency and last-checked retained); without a previous
snapshot the status stays null. -/
theorem checkStatus_failure_preserves (prev : Option SysStatus) :
    (∀ s, prev = some s →
      checkStatusFail prev =
        some { es_connected := false, doc_count := s.doc_count,
               mcp_enabled := s.mcp_enabled, latency_ms := s.latency_ms,
               last_checked := s.last_checked })
    ∧ (prev = none → checkStatusFail prev = none) := by
  constructor
  · rintro s rfl
    rfl
  · rintro rfl
    rfl

/-- Witness for C4 at a concrete snapshot and at null. -/
theorem checkStatus_failure_preserves_witness :
    checkStatusFail (some ⟨true, 5, true, 12, "t"⟩) =
      some ⟨false, 5, true, 12, "t"⟩
    ∧ checkStatusFail none = none :=
  ⟨(checkStatus_failure_preserves (some ⟨true, 5, true, 12, "t"⟩)).1 _ rfl,
   (checkStatus_failure_preserves none).2 rfl⟩

/-- C8: a series with fewer than two data points renders the explicit
no-data state, never a polyline. -/
theorem sparkline_no_data (values : List ℚ) (h : values.length < 2) :
    sparkline values = SparkOut.noData := by
  unfold sparkline
  simp [h]

/-- Witness for C8 on the singleton series. -/
theorem sparkline_no_data_witness : sparkline [(3 : ℚ)] = SparkOut.noData :=
  sparkline_no_data [3] (by decide)

/-- C9: a console submission while a prior one is still running is a
no-op — nothing is dispatched and the executor state is unchanged —
so resolving the earlier submission acts on the same state it would
have without the attempted second submission. -/
theorem runSubmit_noop_while_running (st : ExecState) (h : st.running = true) :
    runSubmit st = (st, false)
    ∧ ∀ o, runResolve (runSubmit st).1 o = runResolve st o := by
  have hst : runSubmit st = (st, false) := by
    unfold runSubmit
    simp [h]
  exact ⟨hst, fun o => by rw [hst]⟩

/-- Witness for C9 at a concrete running state. -/
theorem runSubmit_noop_while_running_witness :
    runSubmit ⟨"FROM lab-results", none, true, none, false⟩ =
      (⟨"FROM lab-results", none, true, none, false⟩, false) :=
  (runSubmit_noop_while_running ⟨"FROM lab-results", none, true, none, false⟩ rfl).1

/-- C7: for percentiles in [0, 100] the needle angle is
p / 100 × 180 − 90 and the band color follows the fixed thresholds
(≥ 90 critical red, ≥ 75 high orange, ≥ 50 elevated yellow, else
normal green); p = 95 gives the critical band at exactly 81° and
p = 50 gives exactly 0°. -/
theorem riskGauge_geometry (p : ℚ) (h0 : 0 ≤ p) (h1 : p ≤ 100) :
    gaugeAngle p = p / 100 * 180 - 90
    ∧ (90 ≤ p → gaugeColor p = "#ef4444")
    ∧ (75 ≤ p → p < 90 → gaugeColor p = "#f97316")
    ∧ (50 ≤ p → p < 75 → gaugeColor p = "#eab308")
    ∧ (p < 50 → gaugeColor p = "#22c55e")
    ∧ gaugeAngle 95 = 81
    ∧ gaugeColor 95 = "#ef4444"
    ∧ gaugeAngle 50 = 0 := by
  refine ⟨rfl, ?_, ?_, ?_, ?_, by norm_num [gaugeAngle], by norm_num [gaugeColor],
    by norm_num [gaugeAngle]⟩
  · intro h90
    simp [gaugeColor, h90]
  · intro h75 h90
    simp [gaugeColor, h75, not_le.mpr h90]
  · intro h50 h75
    have : ¬ 90 ≤ p := by linarith
    simp [gaugeColor, h50, not_le.mpr h75, this]
  · intro h50
    have ha : ¬ 90 ≤ p := by linarith
    have hb : ¬ 75 ≤ p := by linarith
    simp [gaugeColor, not_le.mpr h50, ha, hb]

/-- Witness for C7 at p = 95. -/
theorem riskGauge_geometry_witness :
    gaugeAngle 95 = 81 ∧ gaugeColor 95 = "#ef4444" :=
  ⟨(riskGauge_geometry 95 (by norm_num) (by norm_num)).2.2.2.2.2.1,
   ((riskGauge_geometry 95 (by norm_num) (by norm_num)).2.1 (by norm_num))⟩

/-- C3 counterexample: with one dashboard load still outstanding
(inflight = 1, countdown freshly reset to 30), thirty consecutive
countdown ticks fire a second load, so two refreshes of the dashboard
cadence are in flight at once — the tick is not dropped. -/
theorem dash_tick_not_dropped_cex :
    (dashRun ⟨30, 1⟩ (List.replicate 30 DashEvent.tick)).inflight = 2 := by
  decide

/-- C3 amended: neither cadence has an in-flight guard.  Every fast
tick unconditionally dispatches a new health probe and roster load,
and every dashboard tick that reaches the countdown floor starts a new
load and resets the countdown regardless of how many loads are
outstanding (other ticks only decrement). -/
theorem polling_no_inflight_guard (s : DashSched) (f : FastState)
    (h : s.countdown ≤ 1) :
    (dashStep s .tick).inflight = s.inflight + 1
    ∧ (dashStep s .tick).countdown = 30
    ∧ (∀ s2 : DashSched, 1 < s2.countdown →
        dashStep s2 .tick = ⟨s2.countdown - 1, s2.inflight⟩)
    ∧ (fastStep f .tick).statusInflight = f.statusInflight + 1
    ∧ (fastStep f .tick).rosterInflight = f.rosterInflight + 1 := by
  refine ⟨?_, ?_, ?_, rfl, rfl⟩
  · simp [dashStep, h]
  · simp [dashStep, h]
  · intro s2 h2
    simp [dashStep, not_le.mpr h2]

/-- Witness for the amended C3 at a countdown-floor state with a load
outstanding. -/
theorem polling_no_inflight_guard_witness :
    (dashStep ⟨1, 1⟩ .tick).inflight = 2 :=
  (polling_no_inflight_guard ⟨1, 1⟩ ⟨0, 0⟩ (by decide)).1

/-- Fresh roster containing only PAT001 with 2 critical panels. -/
def patC2 : Patient := ⟨"PAT001", 4, 1, 2, "2024-02-01", "2024-01-01"⟩

/-- Registry state whose active id PAT002 is absent from the fresh roster. -/
def regC2 : RegistryState := ⟨[], "PAT002", none, true⟩

/-- C2 counterexample: loading roster [PAT001 with critical = 2] while
the active id is the stale PAT002 reassigns the active id to PAT001 but
sets the critical-alert flag to null — it is not asserted with count 2
as the claim states, because the alert is computed against the
closure-captured pre-reassignment id. -/
theorem loadPatients_stale_alert_cex :
    (loadPatientsOk regC2 [patC2]).patientId = "PAT001"
    ∧ (loadPatientsOk regC2 [patC2]).criticalAlert = none
    ∧ (loadPatientsOk regC2 [patC2]).criticalAlert ≠
        some (criticalMsg "PAT001" 2) := by
  refine ⟨by decide, by decide, by decide⟩

/-- C2 amended: when the fresh roster does not contain the active id,
the active id is reassigned to the roster's first entry, but the
critical-alert flag is recomputed against the pre-reassignment id and
therefore cleared; it is asserted from the fresh entry's critical count
only on a load whose captured active id already matches that entry; and
the flag depends only on the captured id and the fresh roster, never on
the cached prior roster. -/
theorem loadPatients_failover (st st2 : RegistryState) (r0 : Patient)
    (rest : List Patient)
    (habs : ((r0 :: rest).find? (fun p => p.patient_id == st.patientId)) = none)
    (h2 : st2.patientId = r0.patient_id) :
    (loadPatientsOk st (r0 :: rest)).patientId = r0.patient_id
    ∧ (loadPatientsOk st (r0 :: rest)).criticalAlert = none
    ∧ (loadPatientsOk st2 (r0 :: rest)).criticalAlert =
        (if 0 < r0.critical then some (criticalMsg r0.patient_id r0.critical)
         else none)
    ∧ (∀ st3 : RegistryState, st3.patientId = st.patientId →
        (loadPatientsOk st3 (r0 :: rest)).criticalAlert =
          (loadPatientsOk st (r0 :: rest)).criticalAlert) := by
  refine ⟨?_, ?_, ?_, ?_⟩
  · simp [loadPatientsOk, habs]
  · simp [loadPatientsOk, habs]
  · simp [loadPatientsOk, List.find?, h2]
  · intro st3 h3
    simp [loadPatientsOk, h3]

/-- Witness for the amended C2: the stale load clears the alert; a load
with the new id asserts it with count 2. -/
theorem loadPatients_failover_witness :
    (loadPatientsOk regC2 [patC2]).patientId = "PAT001"
    ∧ (loadPatientsOk regC2 [patC2]).criticalAlert = none
    ∧ (loadPatientsOk ⟨[patC2], "PAT001", none, true⟩ [patC2]).criticalAlert =
        some (criticalMsg "PAT001" 2) := by
  have h := loadPatients_failover regC2 ⟨[patC2], "PAT001", none, true⟩ patC2 []
    (by decide) (by decide)
  refine ⟨h.1, h.2.1, ?_⟩
  have h3 := h.2.2.1
  simpa [patC2] using h3

/-- Any telemetry-feed state reachable by request interceptions from a
bounded state stays within the 6-entry capacity. -/
lemma reqIntercept_length_le (p : String) (prev : List FeedEntry)
    (h : prev.length ≤ 6) : (reqIntercept p prev).length ≤ 6 := by
  unfold reqIntercept
  split
  · exact List.length_take_le 6 _
  · exact h

/-- Any telemetry-feed state reachable by request interceptions from a
bounded state stays within the 6-entry capacity (fold form). -/
lemma foldl_reqIntercept_length (paths : List String) (acc : List FeedEntry)
    (h : acc.length ≤ 6) :
    (paths.foldl (fun a p => reqIntercept p a) acc).length ≤ 6 := by
  induction paths generalizing acc with
  | nil => simpa using h
  | cons p ps ih => exact ih _ (reqIntercept_length_le p acc h)

/-- Any query-log state reachable by `logQuery` from a bounded state
stays within the 10-entry capacity. -/
lemma foldl_logQuery_length (qs : List QueryLog) (acc : List QueryLog)
    (h : acc.length ≤ 10) :
    (qs.foldl (fun a e => logQuery e a) acc).length ≤ 10 := by
  induction qs generalizing acc with
  | nil => simpa using h
  | cons q rest ih => exact ih _ (List.length_take_le 10 _)

/-- C5: the header telemetry feed never exceeds 6 entries and the
dashboard query log never exceeds 10, over any sequence of intercepted
requests and logged queries; each new entry is prepended at the head
and the entries beyond capacity — the oldest, at the tail — are the
ones evicted. -/
theorem telemetry_bounded (paths : List String) (qs : List QueryLog)
    (path : String) (feed : List FeedEntry) (q : QueryLog) (lg : List QueryLog)
    (hg : tapGuard (stripQuery path) = true) :
    (paths.foldl (fun a p => reqIntercept p a) []).length ≤ 6
    ∧ (qs.foldl (fun a e => logQuery e a) []).length ≤ 10
    ∧ reqIntercept path feed =
        ({ label := stripQuery path, ms := 0, rows := 0 } : FeedEntry) ::
          feed.take 5
    ∧ logQuery q lg = q :: lg.take 9 := by
  refine ⟨foldl_reqIntercept_length paths [] (by simp),
    foldl_logQuery_length qs [] (by simp), ?_, ?_⟩
  · unfold reqIntercept
    rw [if_pos hg]
    rfl
  · rfl

/-- Witness for C5 at a concrete guarded path, a feed already at
capacity, and a log entry. -/
theorem telemetry_bounded_witness :
    reqIntercept "/api/patients?x=1"
        [⟨"/a", 1, 1⟩, ⟨"/b", 2, 2⟩, ⟨"/c", 3, 3⟩, ⟨"/d", 4, 4⟩,
         ⟨"/e", 5, 5⟩, ⟨"/f", 6, 6⟩] =
      [⟨"/api/patients", 0, 0⟩, ⟨"/a", 1, 1⟩, ⟨"/b", 2, 2⟩, ⟨"/c", 3, 3⟩,
       ⟨"/d", 4, 4⟩, ⟨"/e", 5, 5⟩]
    ∧ logQuery ⟨"q", 1, 2, "t"⟩ [] = [⟨"q", 1, 2, "t"⟩] := by
  have h := telemetry_bounded [] [] "/api/patients?x=1"
    [⟨"/a", 1, 1⟩, ⟨"/b", 2, 2⟩, ⟨"/c", 3, 3⟩, ⟨"/d", 4, 4⟩,
     ⟨"/e", 5, 5⟩, ⟨"/f", 6, 6⟩] ⟨"q", 1, 2, "t"⟩ [] (by decide)
  exact ⟨h.2.2.1, h.2.2.2⟩

/-- C6: for a guarded response, if the feed head's label equals the
normalized path the head alone is rewritten with the extracted latency
and cardinality (the tail untouched); on a label mismatch or an empty
feed the whole feed is returned unchanged and the metrics are
discarded. -/
theorem respIntercept_head_attribution (path : String) (d : RespData)
    (prev : List FeedEntry) (hg : tapGuard (stripQuery path) = true) :
    (∀ h t, prev = h :: t →
      (h.label = stripQuery path →
        respIntercept path d prev =
          ({ label := stripQuery path, ms := extractMs d,
             rows := extractRows d } : FeedEntry) :: t)
      ∧ (h.label ≠ stripQuery path → respIntercept path d prev = prev))
    ∧ (prev = [] → respIntercept path d prev = prev) := by
  constructor
  · rintro h t rfl
    constructor
    · intro hl
      unfold respIntercept
      rw [if_pos hg]
      simp [hl]
    · intro hl
      unfold respIntercept
      rw [if_pos hg]
      simp [hl]
  · rintro rfl
    unfold respIntercept
    rw [if_pos hg]

/-- Witness for C6: a matching head is updated in place using the
first-present cardinality field; a mismatched head leaves the feed
unchanged. -/
theorem respIntercept_head_attribution_witness :
    respIntercept "/api/alerts/feed?patient_id=PAT001"
        ⟨none, none, none, some [1, 2], none, none, some 9⟩
        [⟨"/api/alerts/feed", 0, 0⟩, ⟨"/api/patients", 3, 3⟩] =
      [⟨"/api/alerts/feed", 9, 2⟩, ⟨"/api/patients", 3, 3⟩]
    ∧ respIntercept "/api/alerts/feed?patient_id=PAT001"
        ⟨none, none, none, some [1, 2], none, none, some 9⟩
        [⟨"/api/patients", 3, 3⟩] =
      [⟨"/api/patients", 3, 3⟩] := by
  have h1 := respIntercept_head_attribution "/api/alerts/feed?patient_id=PAT001"
    ⟨none, none, none, some [1, 2], none, none, some 9⟩
    [⟨"/api/alerts/feed", 0, 0⟩, ⟨"/api/patients", 3, 3⟩] (by decide)
  have h2 := respIntercept_head_attribution "/api/alerts/feed?patient_id=PAT001"
    ⟨none, none, none, some [1, 2], none, none, some 9⟩
    [⟨"/api/patients", 3, 3⟩] (by decide)
  refine ⟨?_, ?_⟩
  · have := (h1.1 _ _ rfl).1 (by decide)
    rw [this]
    decide
  · exact (h2.1 _ _ rfl).2 (by decide)

/-- C1: in every dashboard refresh cycle the loading flag is set once
and cleared exactly once (whether the cycle completed or threw), and on
the completing path each rejected endpoint's slice retains its prior
value while each fulfilled endpoint's slice is replaced by the new
response value. -/
theorem load_cycle_merge (pid : String) (st : DashState) (o : Outcomes)
    (ms1 ms2 ms3 ms4 : Nat) (now : String) (thrown : Bool) :
    ((load pid st o ms1 ms2 ms3 ms4 now thrown).2.count false = 1)
    ∧ ((load pid st o ms1 ms2 ms3 ms4 now thrown).2.count true = 1)
    ∧ ((load pid st o ms1 ms2 ms3 ms4 now thrown).1.loading = false)
    ∧ (thrown = false →
        (o.sumR = none →
          (load pid st o ms1 ms2 ms3 ms4 now false).1.summary = st.summary)
        ∧ (∀ v, o.sumR = some v →
          (load pid st o ms1 ms2 ms3 ms4 now false).1.summary = some v)
        ∧ (o.bioR = none →
          (load pid st o ms1 ms2 ms3 ms4 now false).1.biomarkers = st.biomarkers)
        ∧ (∀ v, o.bioR = some v →
          (load pid st o ms1 ms2 ms3 ms4 now false).1.biomarkers =
            v.biomarkers.getD [])
        ∧ (o.riskR = none →
          (load pid st o ms1 ms2 ms3 ms4 now false).1.risk = st.risk)
        ∧ (∀ v, o.riskR = some v →
          (load pid st o ms1 ms2 ms3 ms4 now false).1.risk = some v)
        ∧ (o.alertR = none →
          (load pid st o ms1 ms2 ms3 ms4 now false).1.alerts = st.alerts)
        ∧ (∀ v, o.alertR = some v →
          (load pid st o ms1 ms2 ms3 ms4 now false).1.alerts =
            v.alerts.getD [])) := by
  obtain ⟨s, b, r, a⟩ := o
  cases thrown <;> cases s <;> cases b <;> cases r <;> cases a <;>
    simp [load, logQuery]

/-- Concrete prior dashboard state for the C1 witness. -/
def dashStC1 : DashState := ⟨some 1, [9], some 3, [4], [], false, "", 30⟩

/-- Concrete outcomes for the C1 witness: summary and risk fulfilled,
biomarkers and alerts rejected. -/
def outC1 : Outcomes := ⟨some 7, none, some 2, none⟩

/-- Witness for C1: with two fulfilled and two rejected endpoints, the
fulfilled slices take the new values, the rejected ones keep their
prior values, and the loading flag ends cleared. -/
theorem load_cycle_merge_witness :
    (load "PAT001" dashStC1 outC1 1 2 3 4 "10:00" false).1.summary = some 7
    ∧ (load "PAT001" dashStC1 outC1 1 2 3 4 "10:00" false).1.biomarkers = [9]
    ∧ (load "PAT001" dashStC1 outC1 1 2 3 4 "10:00" false).1.risk = some 2
    ∧ (load "PAT001" dashStC1 outC1 1 2 3 4 "10:00" false).1.alerts = [4]
    ∧ (load "PAT001" dashStC1 outC1 1 2 3 4 "10:00" false).1.loading = false
    ∧ (load "PAT001" dashStC1 outC1 1 2 3 4 "10:00" false).2.count false = 1 := by
  have h := load_cycle_merge "PAT001" dashStC1 outC1 1 2 3 4 "10:00" false
  obtain ⟨hc, -, hl, hm⟩ := h
  obtain ⟨-, hsum, hbio, -, -, hrisk, halert, -⟩ := hm rfl
  exact ⟨hsum 7 rfl, hbio rfl, hrisk 2 rfl, halert rfl, hl, hc⟩

/-- A min-fold is bounded by its seed. -/
lemma foldl_min_le_init (l : List ℚ) (a : ℚ) : l.foldl min a ≤ a := by
  induction l generalizing a with
  | nil => simp
  | cons h t ih => exact le_trans (ih (min a h)) (min_le_left a h)

/-- A min-fold is bounded by every list element. -/
lemma foldl_min_le_mem (l : List ℚ) (a x : ℚ) (hx : x ∈ l) :
    l.foldl min a ≤ x := by
  induction l generalizing a with
  | nil => cases hx
  | cons h t ih =>
    rcases List.mem_cons.mp hx with rfl | hx2
    · exact le_trans (foldl_min_le_init t (min a x)) (min_le_right a x)
    · exact ih (min a h) hx2

/-- A max-fold dominates its seed. -/
lemma le_foldl_max_init (l : List ℚ) (a : ℚ) : a ≤ l.foldl max a := by
  induction l generalizing a with
  | nil => simp
  | cons h t ih => exact le_trans (le_max_left a h) (ih (max a h))

/-- A max-fold dominates every list element. -/
lemma le_foldl_max_mem (l : List ℚ) (a x : ℚ) (hx : x ∈ l) :
    x ≤ l.foldl max a := by
  induction l generalizing a with
  | nil => cases hx
  | cons h t ih =>
    rcases List.mem_cons.mp hx with rfl | hx2
    · exact le_trans (le_max_right a x) (le_foldl_max_init t (max a x))
    · exact ih (max a h) hx2

/-- `Math.min(...values)` bounds every series element from below. -/
lemma sparkMin_le (values : List ℚ) (v : ℚ) (hv : v ∈ values) :
    sparkMin values ≤ v := by
  cases values with
  | nil => cases hv
  | cons h t =>
    rcases List.mem_cons.mp hv with rfl | hv2
    · exact foldl_min_le_init t v
    · exact foldl_min_le_mem t h v hv2

/-- `Math.max(...values)` bounds every series element from above. -/
lemma le_sparkMax (values : List ℚ) (v : ℚ) (hv : v ∈ values) :
    v ≤ sparkMax values := by
  cases values with
  | nil => cases hv
  | cons h t =>
    rcases List.mem_cons.mp hv with rfl | hv2
    · exact le_foldl_max_init t v
    · exact le_foldl_max_mem t h v hv2

/-- The `max - min || 1` normalization range is strictly positive. -/
lemma sparkRange_pos (values : List ℚ) : 0 < sparkRange values := by
  unfold sparkRange
  split_ifs with h
  · norm_num
  · cases values with
    | nil => simp [sparkMin, sparkMax] at h
    | cons a t =>
      have h1 : sparkMin (a :: t) ≤ a := sparkMin_le _ a (List.mem_cons_self a t)
      have h2 : a ≤ sparkMax (a :: t) := le_sparkMax _ a (List.mem_cons_self a t)
      exact lt_of_le_of_ne (by linarith) (Ne.symm h)

/-- Each element's offset from the minimum is at most the range. -/
lemma sub_le_sparkRange (values : List ℚ) (v : ℚ) (hv : v ∈ values) :
    v - sparkMin values ≤ sparkRange values := by
  have hmax := le_sparkMax values v hv
  unfold sparkRange
  split_ifs with h
  · linarith
  · linarith

/-- C10: for any series of at least two points — a constant series
included — the normalization range is nonzero (the `|| 1` fallback
replaces a zero span), so the coordinate computation is total, and
every produced point lies in the 80×24 pixel box inset by the 2-pixel
padding: x ∈ [2, 78], y ∈ [2, 22]. -/
theorem sparkPoints_total_in_box (values : List ℚ) (h2 : 2 ≤ values.length) :
    sparkRange values ≠ 0
    ∧ ∀ p ∈ sparkPoints values,
        2 ≤ p.1 ∧ p.1 ≤ 78 ∧ 2 ≤ p.2 ∧ p.2 ≤ 22 := by
  refine ⟨ne_of_gt (sparkRange_pos values), ?_⟩
  intro p hp
  simp only [sparkPoints, List.mem_map] at hp
  obtain ⟨⟨i, v⟩, hiv, rfl⟩ := hp
  rw [List.mk_mem_enum_iff_getElem?] at hiv
  obtain ⟨hi, hgv⟩ := List.getElem?_eq_some_iff.mp hiv
  have hv : v ∈ values := hgv ▸ List.getElem_mem hi
  have hn : (2 : ℚ) ≤ (values.length : ℚ) := by exact_mod_cast h2
  have hdpos : (0 : ℚ) < (values.length : ℚ) - 1 := by linarith
  have hi1 : (i : ℚ) ≤ (values.length : ℚ) - 1 := by
    have : (i : ℚ) + 1 ≤ (values.length : ℚ) := by exact_mod_cast hi
    linarith
  have hq0 : (0 : ℚ) ≤ (i : ℚ) / ((values.length : ℚ) - 1) :=
    div_nonneg (by positivity) (le_of_lt hdpos)
  have hq1 : (i : ℚ) / ((values.length : ℚ) - 1) ≤ 1 :=
    (div_le_one hdpos).mpr hi1
  have hr := sparkRange_pos values
  have ht0 : 0 ≤ (v - sparkMin values) / sparkRange values :=
    div_nonneg (by linarith [sparkMin_le values v hv]) (le_of_lt hr)
  have ht1 : (v - sparkMin values) / sparkRange values ≤ 1 :=
    (div_le_one hr).mpr (sub_le_sparkRange values v hv)
  refine ⟨?_, ?_, ?_, ?_⟩ <;> simp only <;> nlinarith

/-- Witness for C10 on a constant two-point series (max = min, so the
range fallback to 1 is exercised). -/
theorem sparkPoints_total_in_box_witness :
    sparkRange [(1 : ℚ), 1] ≠ 0
    ∧ ∀ p ∈ sparkPoints [(1 : ℚ), 1],
        2 ≤ p.1 ∧ p.1 ≤ 78 ∧ 2 ≤ p.2 ∧ p.2 ≤ 22 :=
  sparkPoints_total_in_box [1, 1] (by simp)

end LabIQ
